import Mathlib

/-! grpcstdin: a multiplexed tunnel over a container's attached stdin/stdout.

A shallow embedding of `main.go`:

* `StdinStdout` (lines 130-148), the adapter that joins a readable and a
  writable handle into one read/write/close object;
* `main` (lines 19-98), the sequence of container calls, the 8-byte marker
  read, the stream goroutine and the final `select`, with Go's `defer` and
  `panic` made explicit.

Handles, the Docker client, the pipe and the multiplexer are external: their
answers are inputs of the model, and every call that the program makes is
recorded in a log so that "is called" and "is called before" can be stated.
-/

namespace Grpcstdin

/-! ## Basic data -/

/-- A byte of a Go `[]byte`, kept as a natural number. -/
abbrev Byte := Nat

/-- A Go `error` value: `none` is `nil`, `some msg` a non-nil error. -/
abbrev Error := Option String

/-! ## The adapter `StdinStdout` -/

/-- An `io.ReadCloser` acting on a world state `ω`. `Read` gets the buffer it
is handed and answers the count, the error and the buffer as it left it. -/
structure ReadCloser (ω : Type) where
  Read : ω → List Byte → (Nat × Error × List Byte) × ω
  Close : ω → Error × ω

/-- An `io.WriteCloser` acting on a world state `ω`. -/
structure WriteCloser (ω : Type) where
  Write : ω → List Byte → (Nat × Error) × ω
  Close : ω → Error × ω

/-- The method calls that reach the two handles. -/
inductive Call
  | inRead (b : List Byte)
  | inClose
  | outWrite (b : List Byte)
  | outClose
  deriving DecidableEq, Repr

/-- The state the handles live in, with the log of calls made on them. -/
structure World (ω : Type) where
  st : ω
  calls : List Call

/-- The struct `StdinStdout` (lines 130-133); the field `in` is written `in_`. -/
structure StdinStdout (ω : Type) where
  in_ : ReadCloser ω
  out : WriteCloser ω

/-- The call `s.in.Read(b)`. -/
def StdinStdout.inRead {ω : Type} (s : StdinStdout ω) (b : List Byte) (w : World ω) :
    (Nat × Error × List Byte) × World ω :=
  let r := s.in_.Read w.st b
  (r.1, { st := r.2, calls := w.calls ++ [Call.inRead b] })

/-- The call `s.out.Write(b)`. -/
def StdinStdout.outWrite {ω : Type} (s : StdinStdout ω) (b : List Byte) (w : World ω) :
    (Nat × Error) × World ω :=
  let r := s.out.Write w.st b
  (r.1, { st := r.2, calls := w.calls ++ [Call.outWrite b] })

/-- The call `s.in.Close()`. -/
def StdinStdout.inClose {ω : Type} (s : StdinStdout ω) (w : World ω) : Error × World ω :=
  let r := s.in_.Close w.st
  (r.1, { st := r.2, calls := w.calls ++ [Call.inClose] })

/-- The call `s.out.Close()`. -/
def StdinStdout.outClose {ω : Type} (s : StdinStdout ω) (w : World ω) : Error × World ω :=
  let r := s.out.Close w.st
  (r.1, { st := r.2, calls := w.calls ++ [Call.outClose] })

/-- The method `Read` (lines 135-137): `return s.in.Read(b)`. -/
def StdinStdout.Read {ω : Type} (s : StdinStdout ω) (b : List Byte) (w : World ω) :
    (Nat × Error × List Byte) × World ω :=
  s.inRead b w

/-- The method `Write` (lines 138-140): `return s.out.Write(b)`. -/
def StdinStdout.Write {ω : Type} (s : StdinStdout ω) (b : List Byte) (w : World ω) :
    (Nat × Error) × World ω :=
  s.outWrite b w

/-- The method `Close` (lines 141-148). -/
def StdinStdout.Close {ω : Type} (s : StdinStdout ω) (w : World ω) : Error × World ω :=
  let (e1, w1) := s.inClose w
  let (e2, w2) := s.outClose w1
  if e1 ≠ none then
    (e1, w2)
  else
    (e2, w2)

/-- How often a call occurs in a log. -/
def callCount (c : Call) (l : List Call) : Nat :=
  l.count c

/-! ### Sample handles

A readable handle over a list of pending bytes and a writable handle that
collects what is written; each can be told to fail its `Close`. -/

/-- The state of the sample handles. -/
structure Sample where
  input : List Byte
  written : List Byte
  inCloseErr : Error
  outCloseErr : Error
  inClosed : Nat
  outClosed : Nat
  deriving DecidableEq, Repr

/-- A sample readable handle: hands out as many pending bytes as fit. -/
def sampleIn : ReadCloser Sample where
  Read := fun st b =>
    let got := st.input.take b.length
    ((got.length, none, got ++ b.drop got.length), { st with input := st.input.drop b.length })
  Close := fun st => (st.inCloseErr, { st with inClosed := st.inClosed + 1 })

/-- A sample writable handle: appends what is written. -/
def sampleOut : WriteCloser Sample where
  Write := fun st b => ((b.length, none), { st with written := st.written ++ b })
  Close := fun st => (st.outCloseErr, { st with outClosed := st.outClosed + 1 })

/-- The adapter over the sample handles. -/
def sampleAdapter : StdinStdout Sample :=
  { in_ := sampleIn, out := sampleOut }

/-- A sample world in which both closes fail. -/
def sampleWorld : World Sample :=
  { st := { input := [1, 2, 3], written := [], inCloseErr := some "in: closed pipe",
            outCloseErr := some "out: broken connection", inClosed := 0, outClosed := 0 },
    calls := [] }

/-! ## The pipe of `io.Pipe` -/

/-- The reading end of the pipe made by `io.Pipe()` (line 62): the writes that
the copying goroutine still has to get through, in order, and how the writing
end is closed after them, if ever (`none`: it stays open, as in `main`, which
never closes `pw`; `some "EOF"` for a plain `Close`). -/
structure Pipe where
  pending : List (List Byte)
  closed : Option String
  deriving DecidableEq, Repr

/-- One `Read` on the pipe's reading end with a buffer of `n` bytes. A read
takes from the one write that is pending first, at most `n` bytes and never
from the write after it; with nothing pending it reports how the writing end
was closed, and waits for ever (`none`) when that end is still open. -/
def Pipe.Read (p : Pipe) (n : Nat) : Option ((List Byte × Error) × Pipe) :=
  match p.pending with
  | c :: rest =>
    some ((c.take n, none),
      { p with pending := if (c.drop n).isEmpty then rest else c.drop n :: rest })
  | [] =>
    match p.closed with
    | some e => some (([], some e), p)
    | none => none

/-- All bytes a reader of the pipe still gets, in order. -/
def Pipe.stream (p : Pipe) : List Byte :=
  p.pending.flatten

/-! ## The stream goroutine -/

/-- How `io.Copy(os.Stdout, c)` ends. -/
inductive CopyResult
  | done (err : Error)
  | never
  deriving DecidableEq, Repr

/-- The answers the multiplexer gives the stream goroutine. -/
structure StreamEnv where
  openErr : Error
  writeErr : Error
  copy : CopyResult
  closeErr : Error
  deriving DecidableEq, Repr

/-- What the stream goroutine does, call by call. -/
inductive SEv
  | sessionOpen
  | write
  | printlnErr (e : String)
  | ioCopy
  | close (res : Error)
  deriving DecidableEq, Repr

/-- The goroutine of lines 72-87, run to its end: `session.Open()`, on an
error print and return; `c.Write(...)`, on an error print and return;
`io.Copy(os.Stdout, c)`; `c.Close()`. -/
def streamDriver (s : StreamEnv) : List SEv :=
  match s.openErr with
  | some e => [SEv.sessionOpen, SEv.printlnErr e]
  | none =>
    match s.writeErr with
    | some e => [SEv.sessionOpen, SEv.write, SEv.printlnErr e]
    | none =>
      match s.copy with
      | CopyResult.never => [SEv.sessionOpen, SEv.write, SEv.ioCopy]
      | CopyResult.done _ => [SEv.sessionOpen, SEv.write, SEv.ioCopy, SEv.close s.closeErr]

/-! ## `main` -/

/-- What the exit watch of `ContainerWait` delivers. -/
inductive ExitEvent
  | body (statusCode : Int)
  | err (e : Error)
  deriving DecidableEq, Repr

/-- The answers of everything outside the program during one run: the errors
of the Docker calls, the pipe as the copying goroutine feeds it, the error of
`yamux.Client`, the answers to the stream goroutine, the number of calls the
stream goroutine gets through before `main` returns, and what the exit watch
delivers (`none`: nothing, ever). -/
structure Env where
  newClientErr : Error
  createErr : Error
  tarErr : Error
  copyErr : Error
  commitErr : Error
  attachErr : Error
  startErr : Error
  pipe : Pipe
  yamuxErr : Error
  stream : StreamEnv
  streamSteps : Nat
  exitEvent : Option ExitEvent
  killErr : Error
  deriving DecidableEq, Repr

/-- What the main goroutine does, call by call. -/
inductive Ev
  | newClientWithOpts
  | containerCreate
  | createServerTar
  | copyToContainer
  | containerCommit
  | containerAttach
  | containerWait
  | containerStart (res : Error)
  | ioPipe
  | goStdCopy
  | pipeRead (n : Nat) (err : Error)
  | printfReceived (buf : List Byte)
  | yamuxClient (input : List Byte)
  | goStream
  | printlnStatus (code : Int)
  | printlnErr (e : Error)
  | printlnDone
  | resClose
  | containerKill (res : Error)
  deriving DecidableEq, Repr

/-- How a run of the tunnel ends. The first four are the outcomes the design
names: the exit watch delivered status 0 (`main` prints only `DONE`), it
delivered another status (`main` prints the status code), it delivered an
error (`main` prints the error), or the streams were done first. The last two
are a panic out of `assertNil` and a run that waits for ever. -/
inductive Outcome
  | exitedCleanly
  | exitedWithError (statusCode : Int)
  | watchFailed (e : Error)
  | streamsDrained
  | aborted (e : String)
  | blocked
  deriving DecidableEq, Repr

/-- The calls made so far and the deferred calls, the latest first. -/
structure MState where
  trace : List Ev
  defers : List Ev
  deriving DecidableEq, Repr

/-- Where a piece of `main` leaves the goroutine. -/
inductive Res (α : Type)
  | ok (a : α) (s : MState)
  | panicked (e : String) (s : MState)
  | blocked (s : MState)

/-- A piece of `main`. -/
def M (α : Type) := MState → Res α

/-- Sequencing: a panic or a wait that never ends skips what follows. -/
def M.bind {α β : Type} (m : M α) (f : α → M β) : M β := fun s =>
  match m s with
  | Res.ok a s1 => f a s1
  | Res.panicked e s1 => Res.panicked e s1
  | Res.blocked s1 => Res.blocked s1

instance : Monad M where
  pure a := fun s => Res.ok a s
  bind := M.bind

/-- A call is made. -/
def call (e : Ev) : M Unit := fun s =>
  Res.ok () { s with trace := s.trace ++ [e] }

/-- A `defer` statement. -/
def defer (e : Ev) : M Unit := fun s =>
  Res.ok () { s with defers := e :: s.defers }

/-- The function `assertNil` (lines 100-104). -/
def assertNil (err : Error) : M Unit := fun s =>
  match err with
  | none => Res.ok () s
  | some e => Res.panicked e s

/-- A wait that never ends. -/
def waitForever {α : Type} : M α := fun s => Res.blocked s

/-- The marker read of lines 65-66: `buf := make([]byte, 8)` and one
`pr.Read(buf)`. -/
def markerRead (p : Pipe) : Option ((List Byte × Error) × Pipe) :=
  p.Read 8

/-- The body of `main` (lines 19-98) up to its return. -/
def mainBody (env : Env) : M Outcome := do
  call Ev.newClientWithOpts
  assertNil env.newClientErr
  call Ev.containerCreate
  assertNil env.createErr
  defer (Ev.containerKill env.killErr)
  call Ev.createServerTar
  assertNil env.tarErr
  call Ev.copyToContainer
  assertNil env.copyErr
  call Ev.containerCommit
  assertNil env.commitErr
  call Ev.containerAttach
  assertNil env.attachErr
  defer Ev.resClose
  call Ev.containerWait
  call (Ev.containerStart env.startErr)
  call Ev.ioPipe
  call Ev.goStdCopy
  match markerRead env.pipe with
  | none => waitForever
  | some ((got, err), pr) =>
    call (Ev.pipeRead got.length err)
    assertNil err
    call (Ev.printfReceived (got ++ List.replicate (8 - got.length) 0))
    call (Ev.yamuxClient pr.stream)
    assertNil env.yamuxErr
    call Ev.goStream
    match env.exitEvent with
    | none => waitForever
    | some (ExitEvent.body statusCode) =>
      if statusCode ≠ 0 then
        call (Ev.printlnStatus statusCode)
        call Ev.printlnDone
        pure (Outcome.exitedWithError statusCode)
      else
        call Ev.printlnDone
        pure Outcome.exitedCleanly
    | some (ExitEvent.err e) =>
      call (Ev.printlnErr e)
      call Ev.printlnDone
      pure (Outcome.watchFailed e)

/-- One run of the program. -/
structure Run where
  mainTrace : List Ev
  streamTrace : List SEv
  outcome : Outcome
  deriving DecidableEq, Repr

/-- The stream goroutine's calls: none when it was never started, all of them
when `main` waits for ever, and as many as it got through when `main` returns
(`over`), which ends the program. -/
def streamPart (env : Env) (trace : List Ev) (over : Bool) : List SEv :=
  if Ev.goStream ∈ trace then
    if over then (streamDriver env.stream).take env.streamSteps else streamDriver env.stream
  else []

/-- The program `main`: its body, then the deferred calls, the latest first,
on a return and on a panic alike; a run that waits for ever never gets to
them. -/
def runMain (env : Env) : Run :=
  match mainBody env { trace := [], defers := [] } with
  | Res.ok o s =>
    { mainTrace := s.trace ++ s.defers, streamTrace := streamPart env s.trace true,
      outcome := o }
  | Res.panicked e s =>
    { mainTrace := s.trace ++ s.defers, streamTrace := streamPart env s.trace true,
      outcome := Outcome.aborted e }
  | Res.blocked s =>
    { mainTrace := s.trace, streamTrace := streamPart env s.trace false,
      outcome := Outcome.blocked }

/-! ## Reading a run -/

/-- A call of `ContainerKill`, whatever it returned. -/
def Ev.isKill : Ev → Bool
  | Ev.containerKill _ => true
  | _ => false

/-- The four lifecycle calls: create, attach, wait and start. -/
def Ev.isLifecycle : Ev → Bool
  | Ev.containerCreate => true
  | Ev.containerAttach => true
  | Ev.containerWait => true
  | Ev.containerStart _ => true
  | _ => false

/-- A read on the pipe's reading end. -/
def Ev.isPipeRead : Ev → Bool
  | Ev.pipeRead _ _ => true
  | _ => false

/-- A line that `main` prints for a failed sandbox. -/
def Ev.isErrLine : Ev → Bool
  | Ev.printlnStatus _ => true
  | Ev.printlnErr _ => true
  | _ => false

/-- A line that the stream goroutine prints for a failure of its stream. -/
def SEv.isReport : SEv → Bool
  | SEv.printlnErr _ => true
  | _ => false

/-- A call of the stream's `Close`, whatever it returned. -/
def SEv.isClose : SEv → Bool
  | SEv.close _ => true
  | _ => false

/-- The lifecycle calls of a run, in the order they were made. -/
def lifecycle (l : List Ev) : List Ev :=
  l.filter Ev.isLifecycle

/-- How often the sandbox is killed in a run. -/
def killCount (l : List Ev) : Nat :=
  (l.filter Ev.isKill).length

/-- How often the stream is closed by the stream goroutine. -/
def closeCount (l : List SEv) : Nat :=
  (l.filter SEv.isClose).length

/-- Both calls are made and the first `a` comes before the first `b`. -/
def issuedBefore (a b : Ev) (l : List Ev) : Bool :=
  decide (l.indexOf a < l.indexOf b) && decide (l.indexOf b < l.length)

/-- Every step before the `select` went well: no Docker call failed, the
marker read returned without an error and the endpoint was constructed. -/
def StartupOk (env : Env) : Prop :=
  env.newClientErr = none ∧ env.createErr = none ∧ env.tarErr = none ∧ env.copyErr = none ∧
  env.commitErr = none ∧ env.attachErr = none ∧
  (∃ got pr, markerRead env.pipe = some ((got, none), pr)) ∧ env.yamuxErr = none

/-- The run comes to an end, read off the answers it gets: a step after the
create fails, or the marker read returns and then it returned an error, or
`yamux.Client` fails, or the exit watch delivers an event. -/
def RunEnds (env : Env) : Prop :=
  env.tarErr ≠ none ∨ env.copyErr ≠ none ∨ env.commitErr ≠ none ∨ env.attachErr ≠ none ∨
  ∃ got err pr, markerRead env.pipe = some ((got, err), pr) ∧
    (err ≠ none ∨ env.yamuxErr ≠ none ∨ env.exitEvent ≠ none)

/-- The one declared stream runs to completion before `main` returns: open and
write succeed, the copy of the response ends, and the goroutine gets through
all four of its calls. -/
def StreamCompletes (env : Env) : Prop :=
  env.stream.openErr = none ∧ env.stream.writeErr = none ∧
  (∃ e, env.stream.copy = CopyResult.done e) ∧ 4 ≤ env.streamSteps

/-! ## Sample runs -/

/-- The bytes of `STARTED:`. -/
def readyMarker : List Byte :=
  [83, 84, 65, 82, 84, 69, 68, 58]

/-- A stream that is opened, written, copied and closed without an error. -/
def okStream : StreamEnv :=
  { openErr := none, writeErr := none, copy := CopyResult.done none, closeErr := none }

/-- A run in which everything goes well: the marker arrives in one write, with
four bytes of a frame behind it, and the sandbox exits with status 0. -/
def okEnv : Env :=
  { newClientErr := none, createErr := none, tarErr := none, copyErr := none,
    commitErr := none, attachErr := none, startErr := none,
    pipe := { pending := [readyMarker, [0, 0, 0, 1]], closed := none },
    yamuxErr := none, stream := okStream, streamSteps := 4,
    exitEvent := some (ExitEvent.body 0), killErr := none }

/-- The marker arrives in two writes, `START` and then `ED:` with the first
bytes of a frame. -/
def splitMarkerEnv : Env :=
  { okEnv with
    pipe := { pending := [[83, 84, 65, 82, 84], [69, 68, 58, 0, 0, 0, 1]], closed := none } }

/-- Only the five bytes `START` arrive, and then the end of the attach stream:
the copying goroutine makes its one write and returns, and `pw`, which `main`
never closes, stays open. -/
def fiveBytesEnv : Env :=
  { okEnv with pipe := { pending := [[83, 84, 65, 82, 84]], closed := none } }

/-- The attach call fails. -/
def attachFailsEnv : Env :=
  { okEnv with attachErr := some "attach: no such container",
               killErr := some "kill: not running" }

/-- The stream completes and the sandbox never exits. -/
def neverExitsEnv : Env :=
  { okEnv with exitEvent := none }

/-- The stream completes and the sandbox then exits with status 3. -/
def exitThreeEnv : Env :=
  { okEnv with exitEvent := some (ExitEvent.body 3) }

/-- The sandbox exits with status 0 and the kill fails. -/
def killFailsEnv : Env :=
  { okEnv with killErr := some "kill: not running" }

/-- The exit watch delivers an error. -/
def watchErrEnv : Env :=
  { okEnv with exitEvent := some (ExitEvent.err (some "wait: connection lost")) }

/-- The request write on the stream fails. -/
def writeFailsStream : StreamEnv :=
  { okStream with writeErr := some "session shutdown" }

/-- Open and write succeed and the read of the response fails: `io.Copy`
returns an error. -/
def readFailsStream : StreamEnv :=
  { okStream with copy := CopyResult.done (some "read: stream reset") }

/-- A run that goes well but for the read of the response, which fails, and in
which the goroutine gets through all its calls. -/
def readFailsEnv : Env :=
  { okEnv with stream := readFailsStream }

/-! ## Theorems on the adapter -/

/-- C1: one call to `Close` calls `Close` on the readable handle and then
`Close` on the writable handle, each exactly once and whatever either returns:
the log grows by exactly these two calls, and the state is the one the
writable handle's close leaves after the readable handle's close. -/
theorem close_closes_both_once {ω : Type} (s : StdinStdout ω) (w : World ω) :
    (s.Close w).2.calls = w.calls ++ [Call.inClose, Call.outClose] ∧
    callCount Call.inClose (s.Close w).2.calls = callCount Call.inClose w.calls + 1 ∧
    callCount Call.outClose (s.Close w).2.calls = callCount Call.outClose w.calls + 1 ∧
    (s.Close w).2.st = (s.out.Close (s.in_.Close w.st).2).2 := by
  have hcalls : (s.Close w).2.calls = w.calls ++ [Call.inClose, Call.outClose] := by
    unfold StdinStdout.Close StdinStdout.inClose StdinStdout.outClose
    by_cases h : (s.in_.Close w.st).1 = none <;> simp [h]
  have hst : (s.Close w).2.st = (s.out.Close (s.in_.Close w.st).2).2 := by
    unfold StdinStdout.Close StdinStdout.inClose StdinStdout.outClose
    by_cases h : (s.in_.Close w.st).1 = none <;> simp [h]
  refine ⟨hcalls, ?_, ?_, hst⟩
  · rw [hcalls]; simp [callCount, List.count_append]
  · rw [hcalls]; simp [callCount, List.count_append]

/-- C1 at the sample handles, both of whose closes fail: each handle has been
closed once. -/
theorem close_closes_both_once_witness :
    (sampleAdapter.Close sampleWorld).2.calls = [Call.inClose, Call.outClose] ∧
    (sampleAdapter.Close sampleWorld).2.st.inClosed = 1 ∧
    (sampleAdapter.Close sampleWorld).2.st.outClosed = 1 :=
  ⟨(close_closes_both_once sampleAdapter sampleWorld).1,
   by rw [(close_closes_both_once sampleAdapter sampleWorld).2.2.2]; rfl,
   by rw [(close_closes_both_once sampleAdapter sampleWorld).2.2.2]; rfl⟩

/-- C2: `Close` returns the first non-nil error: the readable handle's close
error when that is non-nil, the writable handle's close error otherwise, and
nil exactly when both closes returned nil. -/
theorem close_returns_first_error {ω : Type} (s : StdinStdout ω) (w : World ω) :
    ((s.in_.Close w.st).1 ≠ none → (s.Close w).1 = (s.in_.Close w.st).1) ∧
    ((s.in_.Close w.st).1 = none →
      (s.Close w).1 = (s.out.Close (s.in_.Close w.st).2).1) ∧
    ((s.Close w).1 = none ↔
      (s.in_.Close w.st).1 = none ∧ (s.out.Close (s.in_.Close w.st).2).1 = none) := by
  unfold StdinStdout.Close StdinStdout.inClose StdinStdout.outClose
  by_cases h : (s.in_.Close w.st).1 = none <;> simp [h]

/-- C2 at the sample handles, both of whose closes fail: the readable
handle's error is the one returned. -/
theorem close_returns_first_error_witness :
    (sampleAdapter.Close sampleWorld).1 = some "in: closed pipe" :=
  (close_returns_first_error sampleAdapter sampleWorld).1 (by decide)

/-- C3: `Read` and `Write` only delegate: `Read b` returns what the readable
handle's `Read b` returns and makes that one call, `Write b` returns what the
writable handle's `Write b` returns and makes that one call; nothing else
touches the state. -/
theorem read_write_delegate {ω : Type} (s : StdinStdout ω) (b : List Byte) (w : World ω) :
    (s.Read b w).1 = (s.in_.Read w.st b).1 ∧
    (s.Read b w).2.st = (s.in_.Read w.st b).2 ∧
    (s.Read b w).2.calls = w.calls ++ [Call.inRead b] ∧
    (s.Write b w).1 = (s.out.Write w.st b).1 ∧
    (s.Write b w).2.st = (s.out.Write w.st b).2 ∧
    (s.Write b w).2.calls = w.calls ++ [Call.outWrite b] :=
  ⟨rfl, rfl, rfl, rfl, rfl, rfl⟩


/-! ## Theorems on the marker read -/

/-- When the write that is pending first holds at least 8 bytes, the marker
read takes exactly its first 8 bytes and the reader after it starts at the
ninth. -/
theorem markerRead_of_long_first_write (p : Pipe) (c : List Byte) (rest : List (List Byte))
    (hp : p.pending = c :: rest) (hc : 8 ≤ c.length) :
    ∃ pr, markerRead p = some ((c.take 8, none), pr) ∧ (c.take 8).length = 8 ∧
      pr.stream = c.drop 8 ++ rest.flatten := by
  refine ⟨{ p with pending := if (c.drop 8).isEmpty then rest else c.drop 8 :: rest }, ?_, ?_, ?_⟩
  · simp only [markerRead, Pipe.Read, hp]
  · simp [List.length_take, hc]
  · by_cases h : (c.drop 8).isEmpty
    · have h0 : c.drop 8 = [] := by simpa using h
      simp [Pipe.stream, h0]
    · simp [Pipe.stream, h]

/-- C4: the marker is read by one `Read`; when it arrives as `START` and then
`ED:` with a frame, that read returns 5 bytes and no error, no second read is
made, and the endpoint is constructed on a stream that begins with `ED:`. -/
theorem short_marker_read_not_continued :
    markerRead splitMarkerEnv.pipe =
      some (([83, 84, 65, 82, 84], none),
        { pending := [[69, 68, 58, 0, 0, 0, 1]], closed := none }) ∧
    ((runMain splitMarkerEnv).mainTrace.filter Ev.isPipeRead) = [Ev.pipeRead 5 none] ∧
    Ev.yamuxClient [69, 68, 58, 0, 0, 0, 1] ∈ (runMain splitMarkerEnv).mainTrace := by
  decide

/-- C5: when only `START` arrives and then the end of the stream, the marker
read returns 5 bytes and no error, `assertNil` passes, the endpoint is
constructed and the stream goroutine is started. -/
theorem five_bytes_then_eof_not_detected :
    markerRead fiveBytesEnv.pipe =
      some (([83, 84, 65, 82, 84], none), { pending := [], closed := none }) ∧
    Ev.yamuxClient [] ∈ (runMain fiveBytesEnv).mainTrace ∧
    Ev.goStream ∈ (runMain fiveBytesEnv).mainTrace ∧
    (runMain fiveBytesEnv).outcome = Outcome.exitedCleanly := by
  decide

/-! ## Theorems on the order of the lifecycle calls -/

/-- C6, as the claim states it, fails: in the run in which everything goes
well the lifecycle calls are create, attach, wait, start, so `ContainerWait`
is issued before `ContainerStart` and not after it. -/
theorem wait_issued_before_start :
    lifecycle (runMain okEnv).mainTrace =
      [Ev.containerCreate, Ev.containerAttach, Ev.containerWait, Ev.containerStart none] ∧
    issuedBefore Ev.containerWait (Ev.containerStart none) (runMain okEnv).mainTrace = true ∧
    issuedBefore (Ev.containerStart none) Ev.containerWait (runMain okEnv).mainTrace = false := by
  decide

/-- C6, amended: in every run of `main` the lifecycle calls that are issued
are, in this order, create, attach, wait, start: a run issues none of them,
or create alone, or create and attach, or all four with `ContainerWait` before
`ContainerStart`. -/
theorem lifecycle_calls_in_order (env : Env) :
    lifecycle (runMain env).mainTrace ∈
      [[], [Ev.containerCreate], [Ev.containerCreate, Ev.containerAttach],
       [Ev.containerCreate, Ev.containerAttach, Ev.containerWait,
        Ev.containerStart env.startErr]] := by
  obtain ⟨a, b, c, d, e, f, g, p, y, st, n, ev, k⟩ := env
  cases a <;> cases b <;> cases c <;> cases d <;> cases e <;> cases f <;>
    simp [runMain, mainBody, bind, M.bind, call, assertNil, defer, waitForever, pure,
      lifecycle, Ev.isLifecycle]
  rcases hm : markerRead p with _ | ⟨⟨got, err⟩, pr⟩
  · simp [waitForever, lifecycle, Ev.isLifecycle]
  · cases err <;> cases y <;>
      simp [bind, M.bind, call, assertNil, waitForever, pure, lifecycle, Ev.isLifecycle]
    rcases ev with _ | c | e <;>
      simp [bind, M.bind, call, assertNil, waitForever, pure, lifecycle, Ev.isLifecycle]
    by_cases hc : c = 0 <;>
      simp [hc, bind, M.bind, call, assertNil, waitForever, pure, lifecycle, Ev.isLifecycle]

/-! ## Theorems on teardown -/

/-- C7: in every run in which the sandbox was created and which comes to an
end, by a return after any exit-watch event or by a panic out of any later
`assertNil`, the run is over, its last call is the deferred `ContainerKill`, it
is issued exactly once, and its result does not change the outcome. -/
theorem kill_issued_on_teardown (env : Env) (h0 : env.newClientErr = none)
    (h1 : env.createErr = none) (hend : RunEnds env) :
    (runMain env).outcome ≠ Outcome.blocked ∧
    (runMain env).mainTrace.getLast? = some (Ev.containerKill env.killErr) ∧
    killCount (runMain env).mainTrace = 1 ∧
    ∀ k, (runMain { env with killErr := k }).outcome = (runMain env).outcome := by
  obtain ⟨a, b, c, d, e, f, g, p, y, st, n, ev, k⟩ := env
  simp only at h0 h1
  subst h0 h1
  revert hend
  cases c <;> cases d <;> cases e <;> cases f <;>
    simp [RunEnds, runMain, mainBody, bind, M.bind, call, assertNil, defer, waitForever, pure,
      killCount, Ev.isKill]
  rcases hm : markerRead p with _ | ⟨⟨got, err⟩, pr⟩
  · simp [waitForever]
  · cases err <;> cases y <;>
      simp [bind, M.bind, call, assertNil, waitForever, pure, killCount, Ev.isKill]
    rcases ev with _ | c | e <;>
      simp [bind, M.bind, call, assertNil, waitForever, pure, killCount, Ev.isKill]
    by_cases hc : c = 0 <;>
      simp [hc, bind, M.bind, call, assertNil, waitForever, pure, killCount, Ev.isKill]

/-- C7 at four runs: a clean exit with a failing kill, an exit with status 3,
an exit-watch error, and a panic out of the failed attach. -/
theorem kill_issued_on_teardown_witness :
    ((runMain killFailsEnv).outcome = Outcome.exitedCleanly ∧
      (runMain killFailsEnv).mainTrace.getLast? =
        some (Ev.containerKill (some "kill: not running")) ∧
      killCount (runMain killFailsEnv).mainTrace = 1 ∧
      (runMain { killFailsEnv with killErr := none }).outcome
        = (runMain killFailsEnv).outcome) ∧
    ((runMain exitThreeEnv).outcome = Outcome.exitedWithError 3 ∧
      (runMain exitThreeEnv).mainTrace.getLast? = some (Ev.containerKill none) ∧
      killCount (runMain exitThreeEnv).mainTrace = 1) ∧
    ((runMain watchErrEnv).outcome = Outcome.watchFailed (some "wait: connection lost") ∧
      (runMain watchErrEnv).mainTrace.getLast? = some (Ev.containerKill none) ∧
      killCount (runMain watchErrEnv).mainTrace = 1) ∧
    ((runMain attachFailsEnv).outcome = Outcome.aborted "attach: no such container" ∧
      (runMain attachFailsEnv).mainTrace.getLast? =
        some (Ev.containerKill (some "kill: not running")) ∧
      killCount (runMain attachFailsEnv).mainTrace = 1) :=
  have hread : markerRead okEnv.pipe =
      some ((readyMarker, none), { pending := [[0, 0, 0, 1]], closed := none }) := by decide
  have hk : RunEnds killFailsEnv :=
    Or.inr (Or.inr (Or.inr (Or.inr ⟨_, _, _, hread, Or.inr (Or.inr (by decide))⟩)))
  have h3 : RunEnds exitThreeEnv :=
    Or.inr (Or.inr (Or.inr (Or.inr ⟨_, _, _, hread, Or.inr (Or.inr (by decide))⟩)))
  have hw : RunEnds watchErrEnv :=
    Or.inr (Or.inr (Or.inr (Or.inr ⟨_, _, _, hread, Or.inr (Or.inr (by decide))⟩)))
  have ha : RunEnds attachFailsEnv := Or.inr (Or.inr (Or.inr (Or.inl (by decide))))
  ⟨⟨by decide, (kill_issued_on_teardown killFailsEnv rfl rfl hk).2.1,
      (kill_issued_on_teardown killFailsEnv rfl rfl hk).2.2.1,
      (kill_issued_on_teardown killFailsEnv rfl rfl hk).2.2.2 none⟩,
   ⟨by decide, (kill_issued_on_teardown exitThreeEnv rfl rfl h3).2.1,
      (kill_issued_on_teardown exitThreeEnv rfl rfl h3).2.2.1⟩,
   ⟨by decide, (kill_issued_on_teardown watchErrEnv rfl rfl hw).2.1,
      (kill_issued_on_teardown watchErrEnv rfl rfl hw).2.2.1⟩,
   ⟨by decide, (kill_issued_on_teardown attachFailsEnv rfl rfl ha).2.1,
      (kill_issued_on_teardown attachFailsEnv rfl rfl ha).2.2.1⟩⟩

/-! ## Theorems on the coordinator and the stream goroutine -/

/-- C8, as the claim states it, fails: with the stream completed and no exit
event the run does not resolve and no kill is issued, and with the stream
completed before an exit with status 3 the outcome is the one of the exit. -/
theorem streams_done_not_resolved :
    closeCount (runMain neverExitsEnv).streamTrace = 1 ∧
    (runMain neverExitsEnv).outcome = Outcome.blocked ∧
    killCount (runMain neverExitsEnv).mainTrace = 0 ∧
    closeCount (runMain exitThreeEnv).streamTrace = 1 ∧
    (runMain exitThreeEnv).outcome = Outcome.exitedWithError 3 := by
  decide

/-- C8, amended: when the declared stream completes before any exit signal,
the coordinator keeps waiting for the exit watch. The outcome is never
`streamsDrained`; as long as no exit event arrives the run does not resolve
and no kill is issued; when the exit event arrives the outcome is the one of
that event and the kill is issued exactly once, on teardown. -/
theorem streams_done_waits_for_exit (env : Env) (h : StartupOk env)
    (hs : StreamCompletes env) :
    (runMain env).streamTrace =
      [SEv.sessionOpen, SEv.write, SEv.ioCopy, SEv.close env.stream.closeErr] ∧
    (runMain env).outcome ≠ Outcome.streamsDrained ∧
    (env.exitEvent = none →
      (runMain env).outcome = Outcome.blocked ∧ killCount (runMain env).mainTrace = 0) ∧
    (env.exitEvent = some (ExitEvent.body 0) →
      (runMain env).outcome = Outcome.exitedCleanly ∧
      killCount (runMain env).mainTrace = 1) ∧
    (∀ c, c ≠ 0 → env.exitEvent = some (ExitEvent.body c) →
      (runMain env).outcome = Outcome.exitedWithError c ∧
      killCount (runMain env).mainTrace = 1) ∧
    (∀ e, env.exitEvent = some (ExitEvent.err e) →
      (runMain env).outcome = Outcome.watchFailed e ∧
      killCount (runMain env).mainTrace = 1) := by
  obtain ⟨a, b, c, d, e, f, g, p, y, ⟨so, sw, sc, scl⟩, n, ev, k⟩ := env
  obtain ⟨h0, h1, h2, h3, h4, h5, ⟨got, pr, hm⟩, h7⟩ := h
  obtain ⟨s0, s1, ⟨ce, s2⟩, s3⟩ := hs
  simp only at h0 h1 h2 h3 h4 h5 hm h7 s0 s1 s2 s3
  subst h0 h1 h2 h3 h4 h5 h7 s0 s1 s2
  have htake : ∀ l : List SEv, l.length = 4 → l.take n = l := fun l hl =>
    List.take_of_length_le (by omega)
  rcases ev with _ | c | e
  · simp [runMain, mainBody, bind, M.bind, call, assertNil, defer, waitForever, hm,
      killCount, Ev.isKill, streamPart, streamDriver]
  · by_cases hc : c = 0
    · subst hc
      simp [runMain, mainBody, bind, M.bind, call, assertNil, defer, pure, hm,
        killCount, Ev.isKill, streamPart, streamDriver, htake]
      intro c hc hc0
      exact hc hc0.symm
    · simp [runMain, mainBody, bind, M.bind, call, assertNil, defer, pure, hm, hc,
        killCount, Ev.isKill, streamPart, streamDriver, htake]
  · simp [runMain, mainBody, bind, M.bind, call, assertNil, defer, pure, hm,
      killCount, Ev.isKill, streamPart, streamDriver, htake]

/-- C8, amended, at the run in which the stream completes and the sandbox never
exits. -/
theorem streams_done_waits_for_exit_witness :
    (runMain neverExitsEnv).streamTrace =
      [SEv.sessionOpen, SEv.write, SEv.ioCopy, SEv.close none] ∧
    (runMain neverExitsEnv).outcome = Outcome.blocked ∧
    killCount (runMain neverExitsEnv).mainTrace = 0 :=
  have h : StartupOk neverExitsEnv :=
    ⟨rfl, rfl, rfl, rfl, rfl, rfl, ⟨readyMarker, { pending := [[0, 0, 0, 1]], closed := none },
      by decide⟩, rfl⟩
  have hs : StreamCompletes neverExitsEnv := ⟨rfl, rfl, ⟨none, rfl⟩, by decide⟩
  ⟨(streams_done_waits_for_exit neverExitsEnv h hs).1,
   (streams_done_waits_for_exit neverExitsEnv h hs).2.2.1 rfl⟩

/-- C9: when the request write fails the goroutine prints the error and
returns, and `Close` is not called on the stream it opened; after a completed
copy `Close` is called once. -/
theorem write_error_leaves_stream_open :
    streamDriver writeFailsStream =
      [SEv.sessionOpen, SEv.write, SEv.printlnErr "session shutdown"] ∧
    closeCount (streamDriver writeFailsStream) = 0 ∧
    closeCount (runMain { okEnv with stream := writeFailsStream }).streamTrace = 0 ∧
    closeCount (streamDriver okStream) = 1 := by
  decide

/-- C10, as the claim states it, fails: when the read of the response fails,
`io.Copy` returns the error to nobody; the goroutine closes the stream and
prints nothing, and `main` prints no error line either, so the failure is
reported nowhere. -/
theorem read_failure_reported_nowhere :
    readFailsEnv.stream.copy = CopyResult.done (some "read: stream reset") ∧
    (runMain readFailsEnv).streamTrace =
      [SEv.sessionOpen, SEv.write, SEv.ioCopy, SEv.close none] ∧
    (runMain readFailsEnv).streamTrace.filter SEv.isReport = [] ∧
    (runMain readFailsEnv).mainTrace.filter Ev.isErrLine = [] ∧
    (runMain readFailsEnv).outcome = Outcome.exitedCleanly := by
  decide

/-- C10, amended: for a run that gets to the `select`, the outcome and the
calls of `main` are the same whatever the stream goroutine meets and however
far it gets; the run is never aborted; the outcome is read off the exit-watch
event alone: status 0 is clean and prints no error line, another status is an
error with that status code, which is printed, and an exit-watch error is a
failure, which is printed; and a failed open or a failed write is printed by
the stream goroutine, which then returns, once it has got that far. -/
theorem outcome_from_exit_watch_alone (env : Env) (h : StartupOk env) (s : StreamEnv)
    (n : Nat) :
    (runMain { env with stream := s, streamSteps := n }).outcome = (runMain env).outcome ∧
    (runMain { env with stream := s, streamSteps := n }).mainTrace = (runMain env).mainTrace ∧
    (∀ e, (runMain { env with stream := s, streamSteps := n }).outcome ≠ Outcome.aborted e) ∧
    (env.exitEvent = some (ExitEvent.body 0) →
      (runMain { env with stream := s, streamSteps := n }).outcome = Outcome.exitedCleanly ∧
      (runMain { env with stream := s, streamSteps := n }).mainTrace.filter Ev.isErrLine
        = []) ∧
    (∀ c, c ≠ 0 → env.exitEvent = some (ExitEvent.body c) →
      (runMain { env with stream := s, streamSteps := n }).outcome
        = Outcome.exitedWithError c ∧
      (runMain { env with stream := s, streamSteps := n }).mainTrace.filter Ev.isErrLine
        = [Ev.printlnStatus c]) ∧
    (∀ e, env.exitEvent = some (ExitEvent.err e) →
      (runMain { env with stream := s, streamSteps := n }).outcome = Outcome.watchFailed e ∧
      (runMain { env with stream := s, streamSteps := n }).mainTrace.filter Ev.isErrLine
        = [Ev.printlnErr e]) ∧
    (∀ e, s.openErr = some e → 2 ≤ n →
      (runMain { env with stream := s, streamSteps := n }).streamTrace
        = [SEv.sessionOpen, SEv.printlnErr e]) ∧
    (∀ e, s.openErr = none → s.writeErr = some e → 3 ≤ n →
      (runMain { env with stream := s, streamSteps := n }).streamTrace
        = [SEv.sessionOpen, SEv.write, SEv.printlnErr e]) := by
  obtain ⟨a, b, c, d, e, f, g, p, y, st, m, ev, k⟩ := env
  obtain ⟨so, sw, sc, scl⟩ := s
  obtain ⟨h0, h1, h2, h3, h4, h5, ⟨got, pr, hm⟩, h7⟩ := h
  simp only at h0 h1 h2 h3 h4 h5 hm h7
  subst h0 h1 h2 h3 h4 h5 h7
  have htake : ∀ l : List SEv, l.length ≤ n → l.take n = l := fun l hl =>
    List.take_of_length_le hl
  have hopen : ∀ e : String, 2 ≤ n →
      List.take n [SEv.sessionOpen, SEv.printlnErr e] = [SEv.sessionOpen, SEv.printlnErr e] :=
    fun e hn => htake _ (by simpa using hn)
  have hwrite : ∀ e : String, 3 ≤ n →
      List.take n [SEv.sessionOpen, SEv.write, SEv.printlnErr e]
        = [SEv.sessionOpen, SEv.write, SEv.printlnErr e] :=
    fun e hn => htake _ (by simpa using hn)
  rcases ev with _ | c | e
  · simp [runMain, mainBody, bind, M.bind, call, assertNil, defer, waitForever, hm,
      Ev.isErrLine, streamPart, streamDriver]
    constructor
    · intro e he _
      simp [he]
    · intro e he hw _
      simp [he, hw]
  · by_cases hc : c = 0
    · subst hc
      simp [runMain, mainBody, bind, M.bind, call, assertNil, defer, pure, hm, Ev.isErrLine,
        streamPart, streamDriver]
      refine ⟨?_, ?_, ?_⟩
      · intro c hc hc0
        exact hc hc0.symm
      · intro e he hn
        simp [he, hopen e hn]
      · intro e he hw hn
        simp [he, hw, hwrite e hn]
    · simp [runMain, mainBody, bind, M.bind, call, assertNil, defer, pure, hm, hc,
        Ev.isErrLine, streamPart, streamDriver]
      constructor
      · intro e he hn
        simp [he, hopen e hn]
      · intro e he hw hn
        simp [he, hw, hwrite e hn]
  · simp [runMain, mainBody, bind, M.bind, call, assertNil, defer, pure, hm, Ev.isErrLine,
      streamPart, streamDriver]
    constructor
    · intro e he hn
      simp [he, hopen e hn]
    · intro e he hw hn
      simp [he, hw, hwrite e hn]

/-- C10, amended, at the run that exits with status 3, with the stream's write
failing in place of a completed stream: the outcome is the one of the exit and
the goroutine has printed the write error. -/
theorem outcome_from_exit_watch_alone_witness :
    (runMain { exitThreeEnv with stream := writeFailsStream, streamSteps := 3 }).outcome
      = (runMain exitThreeEnv).outcome ∧
    (runMain { exitThreeEnv with stream := writeFailsStream, streamSteps := 3 }).outcome
      = Outcome.exitedWithError 3 ∧
    (runMain { exitThreeEnv with stream := writeFailsStream, streamSteps := 3 }).streamTrace
      = [SEv.sessionOpen, SEv.write, SEv.printlnErr "session shutdown"] :=
  have h : StartupOk exitThreeEnv :=
    ⟨rfl, rfl, rfl, rfl, rfl, rfl, ⟨readyMarker, { pending := [[0, 0, 0, 1]], closed := none },
      by decide⟩, rfl⟩
  ⟨(outcome_from_exit_watch_alone exitThreeEnv h writeFailsStream 3).1,
   ((outcome_from_exit_watch_alone exitThreeEnv h writeFailsStream 3).2.2.2.2.1 3
      (by decide) rfl).1,
   (outcome_from_exit_watch_alone exitThreeEnv h writeFailsStream 3).2.2.2.2.2.2.2
      "session shutdown" rfl rfl (by decide)⟩

end Grpcstdin
